import Mathlib

/-!
Shallow embedding of the DioramaCast Flask backend (src/app.py).

The two JSON routes `GET /api/weather` (`get_weather`, app.py:140-201) and
`POST /api/generate-image` (`generate_image`, app.py:203-320) are embedded as
pure Lean functions.  The effectful pieces (the outbound HTTP call to the
weather provider, the Gemini image-generation call, the parsed request body,
and the current date string) are passed in explicitly as parameters, so a
handler is a total function from its inputs and the outcome of its single
outbound call to an HTTP response.

JSON values are modelled by the inductive `JVal`; Python `float(...)` string
parsing is modelled by `parsePyFloat?` (sign, decimal digits, fractional
part, exponent, `inf`/`infinity`/`nan`, surrounding whitespace; numeric
underscores are not modelled); `round` is modelled by `pyRound`
(round-half-to-even, as in Python 3); `str.capitalize` by `pyCapitalize`.
-/

namespace DioramaCast

/-- A JSON value, as produced by Python's `json` module / Flask `get_json`.
Objects keep their key/value pairs as an association list. -/
inductive JVal : Type
  | jnull : JVal
  | jbool (b : Bool) : JVal
  | jnum (q : ℚ) : JVal
  | jstr (s : String) : JVal
  | jarr (xs : List JVal) : JVal
  | jobj (fields : List (String × JVal)) : JVal

/-- Python truthiness of a JSON value (`if not data`): `None`, `False`, `0`,
`""`, `[]` and `` empty dict `` are falsy, everything else truthy. -/
def pyTruthy : JVal → Bool
  | .jnull => false
  | .jbool b => b
  | .jnum q => q != 0
  | .jstr s => !s.isEmpty
  | .jarr xs => !xs.isEmpty
  | .jobj fs => !fs.isEmpty

/-- Result of Python's `float(s)`: either a finite rational, an infinity,
or a NaN. -/
inductive PyFloat : Type
  | finite (q : ℚ) : PyFloat
  | inf : PyFloat
  | negInf : PyFloat
  | nan : PyFloat
  deriving DecidableEq, Repr

/-- Whitespace stripped by Python's `float` before parsing. -/
def isPyWs (c : Char) : Bool :=
  c = ' ' || c = '\t' || c = '\n' || c = '\r' || c = '\x0b' || c = '\x0c'

/-- Numeric value of a digit string (most significant digit first). -/
def natOfDigits (cs : List Char) : ℕ :=
  cs.foldl (fun a c => a * 10 + (c.toNat - 48)) 0

/-- Parse the exponent tail after `e`/`E`: optional sign then at least one
digit. -/
def parseExpTail (cs : List Char) : Option ℤ :=
  match cs with
  | '+' :: t => if t ≠ [] ∧ t.all Char.isDigit then some (natOfDigits t) else none
  | '-' :: t => if t ≠ [] ∧ t.all Char.isDigit then some (-(natOfDigits t : ℤ)) else none
  | t => if t ≠ [] ∧ t.all Char.isDigit then some (natOfDigits t) else none

/-- Parse an unsigned decimal literal (`123`, `1.5`, `.5`, `1.`, `1e-3`, …)
into its exact rational value. -/
def parseDecimal (cs : List Char) : Option ℚ :=
  let ip := cs.takeWhile Char.isDigit
  let r1 := cs.dropWhile Char.isDigit
  let fp : List Char := match r1 with
    | '.' :: t => t.takeWhile Char.isDigit
    | _ => []
  let r2 : List Char := match r1 with
    | '.' :: t => t.dropWhile Char.isDigit
    | _ => r1
  if ip = [] ∧ fp = [] then none
  else
    let mant : ℚ := (natOfDigits ip : ℚ) + (natOfDigits fp : ℚ) / 10 ^ fp.length
    match r2 with
    | [] => some mant
    | 'e' :: t => (parseExpTail t).map (fun e => mant * 10 ^ e)
    | 'E' :: t => (parseExpTail t).map (fun e => mant * 10 ^ e)
    | _ => none

/-- Model of Python's `float(s)` on strings: strip whitespace, optional
sign, then `inf`/`infinity`/`nan` (case-insensitive) or a decimal literal.
Returns `none` when `float` raises `ValueError`. -/
def parsePyFloat? (s : String) : Option PyFloat :=
  let stripped := ((s.data.dropWhile isPyWs).reverse.dropWhile isPyWs).reverse
  let signed : Bool × List Char := match stripped with
    | '+' :: t => (false, t)
    | '-' :: t => (true, t)
    | t => (false, t)
  let neg := signed.1
  let core := signed.2
  let lower := core.map Char.toLower
  if lower = "inf".data ∨ lower = "infinity".data then
    some (if neg then .negInf else .inf)
  else if lower = "nan".data then some .nan
  else (parseDecimal core).map (fun q => .finite (if neg then -q else q))

/-- Python 3 `round` to an integer: round half to even. -/
def pyRound (q : ℚ) : ℤ :=
  if q - ⌊q⌋ < 1/2 then ⌊q⌋
  else if 1/2 < q - ⌊q⌋ then ⌊q⌋ + 1
  else if Even ⌊q⌋ then ⌊q⌋ else ⌊q⌋ + 1

/-- Python `str.capitalize`: first character upper-cased, the rest
lower-cased. -/
def pyCapitalize (s : String) : String :=
  match s.data with
  | [] => ""
  | c :: cs => String.mk (c.toUpper :: cs.map Char.toLower)

/-- A Python exception kind raised while reshaping the upstream payload
(all of them are caught by `get_weather`'s final `except Exception`). -/
inductive PyErr : Type
  | attrError : PyErr
  | indexError : PyErr
  | typeError : PyErr
  deriving DecidableEq, Repr

/-- Python `d.get(key, default)`: on a dict, look the key up with a default;
on any other value `.get` raises `AttributeError`. -/
def dictGet (v : JVal) (key : String) (dflt : JVal) : Except PyErr JVal :=
  match v with
  | .jobj fs => .ok ((fs.lookup key).getD dflt)
  | _ => .error .attrError

/-- Python `v[0]`: first element of a list; an empty list raises
`IndexError`; non-sequence values raise. -/
def index0 (v : JVal) : Except PyErr JVal :=
  match v with
  | .jarr (x :: _) => .ok x
  | .jarr [] => .error .indexError
  | _ => .error .typeError

/-- Python `round(v)` on a JSON value: numbers (and bools, which are ints)
round half-to-even; anything else raises `TypeError`. -/
def roundJ (v : JVal) : Except PyErr ℤ :=
  match v with
  | .jnum q => .ok (pyRound q)
  | .jbool b => .ok (if b then 1 else 0)
  | _ => .error .typeError

/-- Python `v.capitalize()`: only on strings; anything else raises
`AttributeError`. -/
def capitalizeJ (v : JVal) : Except PyErr String :=
  match v with
  | .jstr s => .ok (pyCapitalize s)
  | _ => .error .attrError

/-- The `weather_data` dict built by `get_weather` (app.py:177-187) from the
upstream JSON payload, with the fields evaluated in source order.  Any
exception raised while building it is reported, to be caught by the
handler's generic `except Exception` branch. -/
def normalizeWeather (data : JVal) : Except PyErr (List (String × JVal)) := do
  let name ← dictGet data "name" (.jstr "Unknown")
  let sys ← dictGet data "sys" (.jobj [])
  let country ← dictGet sys "country" (.jstr "")
  let main ← dictGet data "main" (.jobj [])
  let tempV ← dictGet main "temp" (.jnum 0)
  let temp ← roundJ tempV
  let feelsV ← dictGet main "feels_like" (.jnum 0)
  let feels ← roundJ feelsV
  let humidity ← dictGet main "humidity" (.jnum 0)
  let weather0 ← index0 (← dictGet data "weather" (.jarr [.jobj []]))
  let descV ← dictGet weather0 "description" (.jstr "")
  let desc ← capitalizeJ descV
  let icon ← dictGet weather0 "icon" (.jstr "01d")
  let wind ← dictGet data "wind" (.jobj [])
  let speedV ← dictGet wind "speed" (.jnum 0)
  let speed ← roundJ speedV
  let pressure ← dictGet main "pressure" (.jnum 0)
  pure [("location", name), ("country", country), ("temperature", .jnum temp),
    ("feels_like", .jnum feels), ("humidity", humidity),
    ("description", .jstr desc), ("icon", icon), ("wind_speed", .jnum speed),
    ("pressure", pressure)]

/-- An HTTP response: status code and JSON body. -/
structure HttpResp : Type where
  status : ℕ
  body : JVal

/-- What a handler did: its response, and whether it issued its outbound
provider call. -/
structure RouteOut : Type where
  resp : HttpResp
  upstreamCalled : Bool

/-- A JSON error body with a single `error` field, as built by `jsonify`. -/
def errBody (msg : String) : JVal := .jobj [("error", .jstr msg)]

/-- Outcome of the outbound weather HTTP call
(`session.get` + `raise_for_status` + `json()`, app.py:170-172). -/
inductive UpstreamResult : Type
  | timeout : UpstreamResult
  | httpError (status : ℕ) : UpstreamResult
  | requestFailure : UpstreamResult
  | ok (payload : JVal) : UpstreamResult

/-- How `get_weather` rejects a coordinate pair (app.py:145-160). -/
inductive CoordFailure : Type
  | missing : CoordFailure
  | invalid : CoordFailure
  deriving DecidableEq, Repr

/-- The coordinate validation of `get_weather` (app.py:145-160): both query
parameters must be present and non-empty (Python truthiness), both must
parse under `float`, and the chained comparisons `-90 <= lat <= 90` and
`-180 <= lon <= 180` must hold (so NaN and infinities are rejected). -/
def validateCoordinate (lat lon : Option String) : CoordFailure ⊕ (ℚ × ℚ) :=
  match lat, lon with
  | none, _ => .inl .missing
  | _, none => .inl .missing
  | some s, some t =>
    if s.isEmpty ∨ t.isEmpty then .inl .missing
    else
      match parsePyFloat? s, parsePyFloat? t with
      | some (.finite p), some (.finite q) =>
        if -90 ≤ p ∧ p ≤ 90 ∧ -180 ≤ q ∧ q ≤ 180 then .inr (p, q)
        else .inl .invalid
      | some _, some _ => .inl .invalid
      | _, _ => .inl .invalid

/-- The `GET /api/weather` handler (`get_weather`, app.py:140-201).
`lat`/`lon` are the raw query parameters, `apiKey` is `WEATHER_API_KEY`
(empty string when unset), and `up` is the outcome of the outbound call,
consumed only when the handler actually issues it. -/
def getWeather (lat lon : Option String) (apiKey : String)
    (up : UpstreamResult) : RouteOut :=
  match validateCoordinate lat lon with
  | .inl .missing => ⟨⟨400, errBody "Latitude and longitude required"⟩, false⟩
  | .inl .invalid => ⟨⟨400, errBody "Invalid latitude or longitude values"⟩, false⟩
  | .inr _ =>
    if apiKey.isEmpty then
      ⟨⟨500, errBody "Weather API key not configured"⟩, false⟩
    else
      match up with
      | .timeout =>
        ⟨⟨504, errBody "Weather service timeout, please try again"⟩, true⟩
      | .httpError s =>
        ⟨⟨502, errBody ("Weather service error: " ++ toString s)⟩, true⟩
      | .requestFailure =>
        ⟨⟨500, errBody "Failed to fetch weather data, please try again"⟩, true⟩
      | .ok payload =>
        match normalizeWeather payload with
        | .ok fields => ⟨⟨200, .jobj fields⟩, true⟩
        | .error _ => ⟨⟨500, errBody "An unexpected error occurred"⟩, true⟩

/-- Model of Python `str()` on a JSON number, rendered from the exact
rational: integers in plain decimal form, non-integral values as their
finite decimal expansion (every JSON decimal literal has a denominator
dividing a power of ten), switching to exponent notation (`1.5e-05`)
below `1e-4` exactly as CPython's float repr does.  Two deviations from
CPython are disclosed rather than modelled: the rational cannot remember
whether the document wrote `20` or `20.0` (Python prints `20` vs `20.0`),
and a literal with more significant digits than float64 keeps would be
rounded by Python but is rendered exactly here.  The final branch, for a
denominator that is not of the form `2^a * 5^b`, is unreachable from JSON
input. -/
def pyNumRepr (q : ℚ) : String :=
  if q.den = 1 then toString q.num
  else
    let k := 4 * (toString q.den).length
    let p := 10 ^ k
    if p % q.den = 0 then
      let n := q.num.natAbs * (p / q.den)
      let fs := toString (n % p)
      let padded := List.replicate (k - fs.length) '0' ++ fs.data
      let digits := (padded.reverse.dropWhile (fun c => c == '0')).reverse
      let sign := if q.num < 0 then "-" else ""
      if q.num.natAbs * 10000 < q.den then
        let z := (digits.takeWhile (fun c => c == '0')).length
        let sig := digits.drop z
        let mant := match sig with
          | [] => "0"
          | [d] => String.mk [d]
          | d :: r => String.mk [d] ++ "." ++ String.mk r
        let e := z + 1
        let expStr := if e < 10 then "0" ++ toString e else toString e
        sign ++ mant ++ "e-" ++ expStr
      else
        sign ++ toString (n / p) ++ "." ++ String.mk digits
    else
      toString q.num ++ "/" ++ toString q.den

/-- Model of Python `str(v)` as used by f-string interpolation, for the
values that can reach the prompt's `temperature` slot after validation:
strings verbatim, bools as `True`/`False`, numbers via `pyNumRepr`.
`None` and containers fail `float()` with a `TypeError` at app.py:228 and
are rejected with 400 before any prompt is built, so only a placeholder
rendering is given for them. -/
def pyStr : JVal → String
  | .jstr s => s
  | .jbool b => if b then "True" else "False"
  | .jnull => "None"
  | .jnum q => pyNumRepr q
  | .jarr _ => ""
  | .jobj _ => ""

/-- The prompt f-string of `generate_image` (app.py:238-249), transcribed
verbatim.  `location` and `weather` are strings after validation;
`temperature` is interpolated as the original JSON value. -/
def buildPrompt (location weather : String) (temperature : JVal)
    (currentDate : String) : String :=
  "Present a clear, 45° top-down isometric miniature 3D cartoon scene of "
    ++ location
    ++ ", featuring its most iconic landmarks and architectural elements. Use soft, refined textures with realistic PBR materials and gentle, lifelike lighting and shadows. Integrate "
    ++ weather
    ++ " weather directly into the city environment to create an immersive atmospheric mood. Use a clean, minimalistic composition with a soft, solid-colored background. At the top-center, place the title \""
    ++ location
    ++ "\" in large bold text, a prominent weather icon beneath it, then the date ("
    ++ currentDate
    ++ ") (small text) and temperature ("
    ++ pyStr temperature
    ++ "°C"
    ++ ") (medium text). All text must be centered with consistent spacing, and may subtly overlap the tops of the buildings. Square "
    ++ "1000x1000"
    ++ " dimension"

/-- The base64 alphabet. -/
def b64Alphabet : List Char :=
  "ABCDEFGHIJKLMNOPQRSTUVWXYZabcdefghijklmnopqrstuvwxyz0123456789+/".data

/-- The base64 digit for a 6-bit value. -/
def b64Char (n : ℕ) : Char := b64Alphabet.getD n '='

/-- Standard base64 encoding of a byte sequence (`base64.b64encode`). -/
def base64Encode : List ℕ → String
  | [] => ""
  | [a] =>
    String.mk [b64Char (a / 4), b64Char (a % 4 * 16), '=', '=']
  | [a, b] =>
    String.mk [b64Char (a / 4), b64Char (a % 4 * 16 + b / 16),
      b64Char (b % 16 * 4), '=']
  | a :: b :: c :: rest =>
    String.mk [b64Char (a / 4), b64Char (a % 4 * 16 + b / 16),
      b64Char (b % 16 * 4 + c / 64), b64Char (c % 64)] ++ base64Encode rest

/-- The inline image payload of a Gemini response part: raw bytes and a
declared MIME type. -/
structure InlineData : Type where
  data : List ℕ
  mime_type : String

/-- A part of a Gemini candidate's content; `inline_data` is `None` when no
image was produced (e.g. safety filtering). -/
structure GPart : Type where
  inline_data : Option InlineData

/-- The content of a Gemini candidate. -/
structure GContent : Type where
  parts : List GPart

/-- One candidate of a Gemini `generate_content` response. -/
structure Candidate : Type where
  content : GContent

/-- Outcome of the Gemini `generate_content` call (app.py:266-279): either
some exception (whose `str(e)` text is `msg`) or a response with its list
of candidates. -/
inductive GenResult : Type
  | exn (msg : String) : GenResult
  | ok (candidates : List Candidate) : GenResult

/-- Outcome of Flask's `request.get_json()`: a parse failure (any exception,
caught at app.py:207-211) or a parsed JSON value. -/
inductive BodyResult : Type
  | malformed : BodyResult
  | parsed (v : JVal) : BodyResult

/-- Outcome of the body checks of `generate_image` (app.py:207-232):
a 400 rejection with its message, an exception that escapes the handler
(`.get` on a non-dict body raises `AttributeError` outside any `try`,
reaching Flask's generic error handler), or the validated fields. -/
inductive ImgValidation : Type
  | reject (msg : String) : ImgValidation
  | uncaught : ImgValidation
  | ok (location weather : String) (temperature settings : JVal) : ImgValidation

/-- Python `float(v)` on a JSON value (app.py:228): numbers are exact,
bools are 0/1, strings go through `float` string parsing, everything else
raises `TypeError`. -/
def pyFloatOfJVal : JVal → Option PyFloat
  | .jnum q => some (.finite q)
  | .jbool b => some (.finite (if b then 1 else 0))
  | .jstr s => parsePyFloat? s
  | _ => none

/-- The body validation of `generate_image` (app.py:207-232): malformed
JSON and falsy bodies are rejected; fields default when absent
(`"unknown location"`, `"clear sky"`, `20`, empty settings); `location`
and `weather` must be strings of length at most 100; `temperature` must
`float`-parse and satisfy `-100 <= t <= 100`. -/
def validateImageRequest (body : BodyResult) : ImgValidation :=
  match body with
  | .malformed => .reject "Invalid JSON data"
  | .parsed v =>
    if !pyTruthy v then .reject "No data provided"
    else
      match v with
      | .jobj fs =>
        let location := (fs.lookup "location").getD (.jstr "unknown location")
        let weather := (fs.lookup "weather").getD (.jstr "clear sky")
        let temperature := (fs.lookup "temperature").getD (.jnum 20)
        let settings := (fs.lookup "settings").getD (.jobj [])
        match location with
        | .jstr l =>
          if l.length > 100 then .reject "Invalid location parameter"
          else
            match weather with
            | .jstr w =>
              if w.length > 100 then .reject "Invalid weather parameter"
              else
                match pyFloatOfJVal temperature with
                | some (.finite t) =>
                  if -100 ≤ t ∧ t ≤ 100 then .ok l w temperature settings
                  else .reject "Invalid temperature parameter"
                | some _ => .reject "Invalid temperature parameter"
                | none => .reject "Invalid temperature parameter"
            | _ => .reject "Invalid weather parameter"
        | _ => .reject "Invalid location parameter"
      | _ => .uncaught

/-- The string-field check of app.py:223/225: a field is accepted when it
is a string of length at most 100. -/
def validStrField (v : JVal) : Bool :=
  match v with
  | .jstr s => decide (s.length ≤ 100)
  | _ => false

/-- The temperature check of app.py:227-231: accepted when `float(v)`
succeeds with a finite value in `[-100, 100]`. -/
def validTempField (v : JVal) : Bool :=
  match pyFloatOfJVal v with
  | some (.finite t) => decide (-100 ≤ t ∧ t ≤ 100)
  | _ => false

/-- The JSON body of Flask's generic exception handler
(`handle_exception`, app.py:343-350). -/
def uncaughtBody : JVal :=
  .jobj [("error", .jstr "An unexpected error occurred"),
    ("message", .jstr "Please try again later")]

/-- The fixed placeholder URL returned when no Gemini key is configured
(app.py:256). -/
def placeholderUrl : String :=
  "https://via.placeholder.com/1000x1000.png?text=Configure+API+Key"

/-- The `POST /api/generate-image` handler (`generate_image`,
app.py:203-320).  `body` is the parsed request body, `apiKey` is
`GEMINI_API_KEY` (empty when unset), `currentDate` the formatted current
date, and `gen` the outcome of the Gemini call, consumed only when the
handler issues it. -/
def generateImage (body : BodyResult) (apiKey : String) (currentDate : String)
    (gen : GenResult) : RouteOut :=
  match validateImageRequest body with
  | .reject msg => ⟨⟨400, errBody msg⟩, false⟩
  | .uncaught => ⟨⟨500, uncaughtBody⟩, false⟩
  | .ok location weather temperature _settings =>
    let prompt := buildPrompt location weather temperature currentDate
    if apiKey.isEmpty then
      ⟨⟨200, .jobj [("image_url", .jstr placeholderUrl),
        ("prompt", .jstr prompt),
        ("message", .jstr "Gemini API key not configured. This is a placeholder.")]⟩,
        false⟩
    else
      match gen with
      | .exn msg =>
        ⟨⟨500, .jobj [("error", .jstr ("Failed to generate image: " ++ msg)),
          ("prompt", .jstr prompt),
          ("message", .jstr "Check API key configuration and model availability")]⟩,
          true⟩
      | .ok cands =>
        match cands with
        | [] =>
          ⟨⟨500, .jobj [("error", .jstr "Failed to generate image: list index out of range"),
            ("prompt", .jstr prompt),
            ("message", .jstr "Check API key configuration and model availability")]⟩,
            true⟩
        | c :: _ =>
          match c.content.parts with
          | [] =>
            ⟨⟨500, .jobj [("error", .jstr "Failed to generate image: list index out of range"),
              ("prompt", .jstr prompt),
              ("message", .jstr "Check API key configuration and model availability")]⟩,
              true⟩
          | p :: _ =>
            match p.inline_data with
            | some d =>
              ⟨⟨200, .jobj [("image_url",
                .jstr ("data:" ++ d.mime_type ++ ";base64," ++ base64Encode d.data)),
                ("prompt", .jstr prompt),
                ("message", .jstr "Image generation successful")]⟩, true⟩
            | none =>
              ⟨⟨200, .jobj [("image_url", .jnull),
                ("prompt", .jstr prompt),
                ("message", .jstr "Image generation successful")]⟩, true⟩

/-- Look a key up in a JSON-object response body. -/
def bodyField (r : HttpResp) (key : String) : Option JVal :=
  match r.body with
  | .jobj fs => fs.lookup key
  | _ => none

/-- The keys of a JSON-object response body, in order. -/
def bodyKeys (r : HttpResp) : List String :=
  match r.body with
  | .jobj fs => fs.map Prod.fst
  | _ => []

/-! ### Helper lemmas -/

lemma parsePyFloat?_empty : parsePyFloat? "" = none := rfl

lemma isEmpty_false_of_parse {s : String} {v : PyFloat}
    (h : parsePyFloat? s = some v) : s.isEmpty = false := by
  by_contra hne
  have hs : s = "" := (String.isEmpty_iff s).mp (by
    cases he : s.isEmpty with
    | false => exact absurd he hne
    | true => rfl)
  rw [hs, parsePyFloat?_empty] at h
  cases h

lemma validateCoordinate_inr {s t : String} {p q : ℚ}
    (hs : parsePyFloat? s = some (.finite p))
    (ht : parsePyFloat? t = some (.finite q))
    (h1 : -90 ≤ p) (h2 : p ≤ 90) (h3 : -180 ≤ q) (h4 : q ≤ 180) :
    validateCoordinate (some s) (some t) = .inr (p, q) := by
  simp only [validateCoordinate, isEmpty_false_of_parse hs,
    isEmpty_false_of_parse ht, hs, ht]
  simp [h1, h2, h3, h4]

lemma validateCoordinate_inr_elim {lat lon : Option String} {p q : ℚ}
    (h : validateCoordinate lat lon = .inr (p, q)) :
    ∃ s t, lat = some s ∧ lon = some t ∧
      parsePyFloat? s = some (.finite p) ∧ parsePyFloat? t = some (.finite q) ∧
      -90 ≤ p ∧ p ≤ 90 ∧ -180 ≤ q ∧ q ≤ 180 := by
  cases lat with
  | none => simp [validateCoordinate] at h
  | some s =>
    cases lon with
    | none => simp [validateCoordinate] at h
    | some t =>
      refine ⟨s, t, rfl, rfl, ?_⟩
      simp only [validateCoordinate] at h
      split at h
      · exact absurd h (by simp)
      · split at h
        next p' q' hps hqt =>
          split at h
          next hb =>
            injection h with h'
            obtain ⟨hp, hq⟩ := Prod.mk.injEq .. ▸ h'
            subst hp; subst hq
            exact ⟨hps, hqt, hb.1, hb.2.1, hb.2.2.1, hb.2.2.2⟩
          next => exact absurd h (by simp)
        next => exact absurd h (by simp)
        next => exact absurd h (by simp)

/-- `pyRound q` is a nearest integer to `q`: no integer is strictly
closer. -/
lemma pyRound_nearest (q : ℚ) (n : ℤ) :
    |q - (pyRound q : ℚ)| ≤ |q - (n : ℚ)| := by
  have hf : (⌊q⌋ : ℚ) ≤ q := Int.floor_le q
  have hf1 : q < ⌊q⌋ + 1 := Int.lt_floor_add_one q
  have hcase : (n : ℚ) ≤ (⌊q⌋ : ℚ) ∨ ((⌊q⌋ : ℚ) + 1 : ℚ) ≤ (n : ℚ) := by
    rcases le_or_lt n ⌊q⌋ with h | h
    · exact Or.inl (by exact_mod_cast h)
    · exact Or.inr (by exact_mod_cast Int.add_one_le_iff.mpr h)
  unfold pyRound
  split_ifs with h1 h2 h3 <;>
    push_cast <;>
    rcases hcase with hn | hn <;>
    rcases abs_cases (q - (n : ℚ)) with ⟨he, _⟩ | ⟨he, _⟩ <;>
    rw [he] <;>
    rw [abs_le] <;>
    constructor <;>
    linarith

lemma parse_40 : parsePyFloat? "40" = some (.finite 40) := by
  have h : parsePyFloat? "40" = some (.finite ((natOfDigits "40".data : ℚ) +
      (natOfDigits ([] : List Char) : ℚ) / 10 ^ ([] : List Char).length)) := rfl
  have e1 : natOfDigits "40".data = 40 := by decide
  have e2 : natOfDigits ([] : List Char) = 0 := rfl
  rw [h, e1, e2]
  norm_num

lemma parse_m74 : parsePyFloat? "-74" = some (.finite (-74)) := by
  have h : parsePyFloat? "-74" = some (.finite (-((natOfDigits "74".data : ℚ) +
      (natOfDigits ([] : List Char) : ℚ) / 10 ^ ([] : List Char).length))) := rfl
  have e1 : natOfDigits "74".data = 74 := by decide
  have e2 : natOfDigits ([] : List Char) = 0 := rfl
  rw [h, e1, e2]
  norm_num

lemma validate_40_m74 :
    validateCoordinate (some "40") (some "-74") = .inr (40, -74) :=
  validateCoordinate_inr parse_40 parse_m74 (by norm_num) (by norm_num)
    (by norm_num) (by norm_num)

lemma parse_91 : parsePyFloat? "91" = some (.finite 91) := by
  have h : parsePyFloat? "91" = some (.finite ((natOfDigits "91".data : ℚ) +
      (natOfDigits ([] : List Char) : ℚ) / 10 ^ ([] : List Char).length)) := rfl
  have e1 : natOfDigits "91".data = 91 := by decide
  have e2 : natOfDigits ([] : List Char) = 0 := rfl
  rw [h, e1, e2]
  norm_num

lemma pyRound_zero : pyRound 0 = 0 := by
  norm_num [pyRound]

/-- The nine default fields produced from an empty upstream payload. -/
lemma normalizeWeather_empty : normalizeWeather (.jobj []) =
    .ok [("location", .jstr "Unknown"), ("country", .jstr ""),
      ("temperature", .jnum 0), ("feels_like", .jnum 0),
      ("humidity", .jnum 0), ("description", .jstr ""), ("icon", .jstr "01d"),
      ("wind_speed", .jnum 0), ("pressure", .jnum 0)] := by
  have h : normalizeWeather (.jobj []) =
      .ok [("location", .jstr "Unknown"), ("country", .jstr ""),
        ("temperature", .jnum (pyRound 0)), ("feels_like", .jnum (pyRound 0)),
        ("humidity", .jnum 0), ("description", .jstr ""), ("icon", .jstr "01d"),
        ("wind_speed", .jnum (pyRound 0)), ("pressure", .jnum 0)] := rfl
  rw [h, pyRound_zero]
  norm_num

/-! ### Claim theorems -/

/-- C10: if the upstream payload maps `"weather"` to an empty list (present
but empty, unlike absent), `get_weather` does not default the description
and icon but raises `IndexError` on `[0]`, and the route answers HTTP 500
through the generic unexpected-error branch; with `"weather"` absent the
same payload normalizes fine (status 200). -/
theorem claimC10_empty_weather_list_raises :
    normalizeWeather (.jobj [("weather", .jarr [])]) = .error .indexError ∧
    normalizeWeather (.jobj [("name", .jstr "Oslo"),
      ("main", .jobj [("temp", .jnum 7), ("feels_like", .jnum 5),
        ("humidity", .jnum 80), ("pressure", .jnum 1013)]),
      ("weather", .jarr [])]) = .error .indexError ∧
    getWeather (some "40") (some "-74") "k"
        (.ok (.jobj [("weather", .jarr [])])) =
      ⟨⟨500, errBody "An unexpected error occurred"⟩, true⟩ ∧
    (getWeather (some "40") (some "-74") "k" (.ok (.jobj []))).resp.status
      = 200 := by
  refine ⟨rfl, rfl, ?_, ?_⟩
  · simp [getWeather, validate_40_m74, show "k".isEmpty = false from rfl,
      show normalizeWeather (.jobj [("weather", .jarr [])]) =
        .error .indexError from rfl]
  · simp [getWeather, validate_40_m74, show "k".isEmpty = false from rfl,
      normalizeWeather_empty]

/-- C4: with a valid coordinate and a configured key, the outbound failure
kind fixes the status exactly: timeout gives 504, an upstream HTTP error
gives 502 with the upstream status in the error message, and a
network-level failure gives 500, each with a JSON error body. -/
theorem claimC4_upstream_failure_mapping (lat lon : Option String) (p q : ℚ)
    (hv : validateCoordinate lat lon = .inr (p, q)) (key : String)
    (hk : key.isEmpty = false) (s : ℕ) :
    getWeather lat lon key .timeout =
      ⟨⟨504, errBody "Weather service timeout, please try again"⟩, true⟩ ∧
    getWeather lat lon key (.httpError s) =
      ⟨⟨502, errBody ("Weather service error: " ++ toString s)⟩, true⟩ ∧
    getWeather lat lon key .requestFailure =
      ⟨⟨500, errBody "Failed to fetch weather data, please try again"⟩, true⟩ := by
  refine ⟨?_, ?_, ?_⟩ <;> simp [getWeather, hv, hk]

/-- Witness for C4 at a concrete request: upstream 503 maps to HTTP 502
with the status in the message. -/
theorem claimC4_upstream_failure_mapping_witness :
    getWeather (some "40") (some "-74") "k" (.httpError 503) =
      ⟨⟨502, errBody ("Weather service error: " ++ toString 503)⟩, true⟩ :=
  (claimC4_upstream_failure_mapping (some "40") (some "-74")
    40 (-74) validate_40_m74 "k" rfl 503).2.1

/-- C7: with the relevant key absent the two routes differ by design: the
weather route answers HTTP 500 with an error body, while the image route
answers HTTP 200 with the fixed placeholder URL, the built prompt, and an
explanatory message. -/
theorem claimC7_missing_key_asymmetry (lat lon : Option String) (p q : ℚ)
    (hv : validateCoordinate lat lon = .inr (p, q)) (up : UpstreamResult)
    (body : BodyResult) (l w : String) (tv sv : JVal)
    (hb : validateImageRequest body = .ok l w tv sv)
    (date : String) (gen : GenResult) :
    getWeather lat lon "" up =
      ⟨⟨500, errBody "Weather API key not configured"⟩, false⟩ ∧
    generateImage body "" date gen =
      ⟨⟨200, .jobj [("image_url", .jstr placeholderUrl),
        ("prompt", .jstr (buildPrompt l w tv date)),
        ("message", .jstr "Gemini API key not configured. This is a placeholder.")]⟩,
        false⟩ := by
  constructor
  · simp [getWeather, hv, show "".isEmpty = true from rfl]
  · simp [generateImage, hb, show "".isEmpty = true from rfl]

/-- Witness for C7 at a concrete coordinate and image request. -/
theorem claimC7_missing_key_asymmetry_witness :
    getWeather (some "40") (some "-74") "" .timeout =
      ⟨⟨500, errBody "Weather API key not configured"⟩, false⟩ ∧
    generateImage (.parsed (.jobj [("location", .jstr "Test City")])) ""
        "May 01, 2025" (.ok []) =
      ⟨⟨200, .jobj [("image_url", .jstr placeholderUrl),
        ("prompt", .jstr (buildPrompt "Test City" "clear sky" (.jnum 20) "May 01, 2025")),
        ("message", .jstr "Gemini API key not configured. This is a placeholder.")]⟩,
        false⟩ :=
  claimC7_missing_key_asymmetry (some "40") (some "-74")
    40 (-74) validate_40_m74 .timeout
    (.parsed (.jobj [("location", .jstr "Test City")]))
    "Test City" "clear sky" (.jnum 20) (.jobj []) rfl "May 01, 2025" (.ok [])

/-- C9 counterexample: the raw provider exception text is embedded verbatim
(after the fixed prefix text) in the error field returned to the client,
however long it is, so the response does expose it. -/
theorem claimC9_counterexample :
    bodyField (generateImage (.parsed (.jobj [("location", .jstr "Paris")]))
      "k" "May 01, 2025"
      (.exn "ClientError: 429 RESOURCE_EXHAUSTED: quota exceeded for metric generate_requests_per_model_per_day, limit 0, model gemini-2.5-flash-image, please see https://ai.google.dev/gemini-api/docs/rate-limits")).resp
      "error" =
    some (.jstr ("Failed to generate image: " ++
      "ClientError: 429 RESOURCE_EXHAUSTED: quota exceeded for metric generate_requests_per_model_per_day, limit 0, model gemini-2.5-flash-image, please see https://ai.google.dev/gemini-api/docs/rate-limits")) :=
  rfl

/-- C9 (amended): any provider-level exception is reported as HTTP 500 with
the attempted prompt and the hint message, and the error field carries the
exception text verbatim behind the fixed failure message. -/
theorem claimC9_provider_exception_response (body : BodyResult) (l w : String)
    (tv sv : JVal) (hb : validateImageRequest body = .ok l w tv sv)
    (key : String) (hk : key.isEmpty = false) (date msg : String) :
    generateImage body key date (.exn msg) =
      ⟨⟨500, .jobj [("error", .jstr ("Failed to generate image: " ++ msg)),
        ("prompt", .jstr (buildPrompt l w tv date)),
        ("message", .jstr "Check API key configuration and model availability")]⟩,
        true⟩ := by
  simp [generateImage, hb, hk]

/-- Witness for C9 at a concrete request and exception. -/
theorem claimC9_provider_exception_response_witness :
    generateImage (.parsed (.jobj [("location", .jstr "Paris")])) "k"
        "May 01, 2025" (.exn "boom") =
      ⟨⟨500, .jobj [("error", .jstr ("Failed to generate image: " ++ "boom")),
        ("prompt", .jstr (buildPrompt "Paris" "clear sky" (.jnum 20) "May 01, 2025")),
        ("message", .jstr "Check API key configuration and model availability")]⟩,
        true⟩ :=
  claimC9_provider_exception_response
    (.parsed (.jobj [("location", .jstr "Paris")]))
    "Paris" "clear sky" (.jnum 20) (.jobj []) rfl "k" rfl "May 01, 2025" "boom"

/-- C8: a request that fails validation, on either route, is answered with
HTTP 400 and a JSON payload carrying an `error` field, and no outbound
call is made. -/
theorem claimC8_validation_rejects_before_call (lat lon : Option String)
    (key : String) (up : UpstreamResult) (e : CoordFailure)
    (hw : validateCoordinate lat lon = .inl e)
    (body : BodyResult) (msg : String)
    (hb : validateImageRequest body = .reject msg)
    (key2 date : String) (gen : GenResult) :
    ((getWeather lat lon key up).resp.status = 400 ∧
      (∃ m, bodyField (getWeather lat lon key up).resp "error" = some (.jstr m)) ∧
      (getWeather lat lon key up).upstreamCalled = false) ∧
    ((generateImage body key2 date gen).resp.status = 400 ∧
      bodyField (generateImage body key2 date gen).resp "error" = some (.jstr msg) ∧
      (generateImage body key2 date gen).upstreamCalled = false) := by
  constructor
  · cases e <;> simp [getWeather, hw, bodyField, errBody]
  · simp [generateImage, hb, bodyField, errBody]

/-- Witness for C8: a request with a missing latitude and a request whose
body is the empty JSON object are both rejected without an outbound call. -/
theorem claimC8_validation_rejects_before_call_witness :
    ((getWeather none (some "-74") "k" .timeout).resp.status = 400 ∧
      (∃ m, bodyField (getWeather none (some "-74") "k" .timeout).resp "error" =
        some (.jstr m)) ∧
      (getWeather none (some "-74") "k" .timeout).upstreamCalled = false) ∧
    ((generateImage (.parsed (.jobj [])) "k" "May 01, 2025" (.ok [])).resp.status = 400 ∧
      bodyField (generateImage (.parsed (.jobj [])) "k" "May 01, 2025" (.ok [])).resp
        "error" = some (.jstr "No data provided") ∧
      (generateImage (.parsed (.jobj [])) "k" "May 01, 2025" (.ok [])).upstreamCalled
        = false) :=
  claimC8_validation_rejects_before_call none (some "-74") "k" .timeout
    .missing rfl (.parsed (.jobj [])) "No data provided" rfl "k" "May 01, 2025"
    (.ok [])

/-- C3 counterexample: with a configured key and a provider response whose
candidate list is empty, the handler does not return a 200 success with a
null image: the `IndexError` from `response.candidates[0]` is caught by the
generic handler and reported as HTTP 500. -/
theorem claimC3_counterexample :
    (generateImage (.parsed (.jobj [("location", .jstr "Paris")])) "k"
      "May 01, 2025" (.ok [])).resp.status = 500 := rfl

/-- C3 (amended): when the provider call completes and the first part of
the first candidate carries no inline image data, the handler returns
HTTP 200 with a null `image_url` (and the fixed success message); an empty
candidate list, or a first candidate with no parts, instead raises and is
reported as HTTP 500. -/
theorem claimC3_no_image_content (body : BodyResult) (l w : String)
    (tv sv : JVal) (hb : validateImageRequest body = .ok l w tv sv)
    (key : String) (hk : key.isEmpty = false) (date : String)
    (ps : List GPart) (cs : List Candidate) :
    generateImage body key date
        (.ok ({ content := { parts := { inline_data := none } :: ps } } :: cs)) =
      ⟨⟨200, .jobj [("image_url", .jnull),
        ("prompt", .jstr (buildPrompt l w tv date)),
        ("message", .jstr "Image generation successful")]⟩, true⟩ ∧
    generateImage body key date (.ok []) =
      ⟨⟨500, .jobj [("error", .jstr "Failed to generate image: list index out of range"),
        ("prompt", .jstr (buildPrompt l w tv date)),
        ("message", .jstr "Check API key configuration and model availability")]⟩,
        true⟩ ∧
    generateImage body key date (.ok ({ content := { parts := [] } } :: cs)) =
      ⟨⟨500, .jobj [("error", .jstr "Failed to generate image: list index out of range"),
        ("prompt", .jstr (buildPrompt l w tv date)),
        ("message", .jstr "Check API key configuration and model availability")]⟩,
        true⟩ := by
  refine ⟨?_, ?_, ?_⟩ <;> simp [generateImage, hb, hk]

/-- Witness for C3 (amended) at a concrete request whose single candidate
part has no inline data. -/
theorem claimC3_no_image_content_witness :
    generateImage (.parsed (.jobj [("location", .jstr "Paris")])) "k"
        "May 01, 2025"
        (.ok [{ content := { parts := [{ inline_data := none }] } }]) =
      ⟨⟨200, .jobj [("image_url", .jnull),
        ("prompt", .jstr (buildPrompt "Paris" "clear sky" (.jnum 20) "May 01, 2025")),
        ("message", .jstr "Image generation successful")]⟩, true⟩ :=
  (claimC3_no_image_content (.parsed (.jobj [("location", .jstr "Paris")]))
    "Paris" "clear sky" (.jnum 20) (.jobj []) rfl "k" rfl "May 01, 2025"
    [] []).1

/-- C1: a weather request whose query parameters both parse as finite
decimals with latitude in `[-90, 90]` and longitude in `[-180, 180]`
passes validation (the handler never answers 400); any other combination
(missing, non-numeric, non-finite, or out of range) is answered with
HTTP 400. -/
theorem claimC1_coordinate_validation (lat lon : Option String) (key : String)
    (up : UpstreamResult) :
    ((∃ s t p q, lat = some s ∧ lon = some t ∧
        parsePyFloat? s = some (.finite p) ∧ parsePyFloat? t = some (.finite q) ∧
        -90 ≤ p ∧ p ≤ 90 ∧ -180 ≤ q ∧ q ≤ 180) →
      (getWeather lat lon key up).resp.status ≠ 400) ∧
    (¬(∃ s t p q, lat = some s ∧ lon = some t ∧
        parsePyFloat? s = some (.finite p) ∧ parsePyFloat? t = some (.finite q) ∧
        -90 ≤ p ∧ p ≤ 90 ∧ -180 ≤ q ∧ q ≤ 180) →
      (getWeather lat lon key up).resp.status = 400) := by
  constructor
  · rintro ⟨s, t, p, q, rfl, rfl, hs, ht, h1, h2, h3, h4⟩
    have hv := validateCoordinate_inr hs ht h1 h2 h3 h4
    by_cases hke : key.isEmpty
    · simp [getWeather, hv, hke]
    · cases up with
      | timeout => simp [getWeather, hv, hke]
      | httpError st => simp [getWeather, hv, hke]
      | requestFailure => simp [getWeather, hv, hke]
      | ok payload =>
        cases hn : normalizeWeather payload with
        | ok fields => simp [getWeather, hv, hke, hn]
        | error e => simp [getWeather, hv, hke, hn]
  · intro hne
    rcases hv : validateCoordinate lat lon with e | pq
    · cases e <;> simp [getWeather, hv]
    · exfalso
      obtain ⟨p, q⟩ := pq
      obtain ⟨s, t, hls, hlt, hs, ht, h1, h2, h3, h4⟩ :=
        validateCoordinate_inr_elim hv
      exact hne ⟨s, t, p, q, hls, hlt, hs, ht, h1, h2, h3, h4⟩

/-- Witness for C1: the pair (40, -74) passes validation while latitude 91
is rejected with 400. -/
theorem claimC1_coordinate_validation_witness :
    (getWeather (some "40") (some "-74") "k" .timeout).resp.status ≠ 400 ∧
    (getWeather (some "91") (some "-74") "k" .timeout).resp.status = 400 := by
  constructor
  · exact (claimC1_coordinate_validation (some "40") (some "-74") "k" .timeout).1
      ⟨"40", "-74", 40, -74, rfl, rfl, parse_40, parse_m74, by norm_num,
        by norm_num, by norm_num, by norm_num⟩
  · refine (claimC1_coordinate_validation (some "91") (some "-74") "k" .timeout).2 ?_
    rintro ⟨s, t, p, q, hls, hlt, hs, ht, h1, h2, h3, h4⟩
    obtain rfl : "91" = s := Option.some.inj hls
    rw [parse_91] at hs
    obtain rfl : (91 : ℚ) = p := by
      injection hs with h
      injection h
    norm_num at h2

/-- C5: a fully populated upstream payload normalizes with temperature,
feels-like and wind speed rounded (half-to-even, hence to a nearest
integer), the description capitalized and the other fields passed through;
an upstream payload with every field absent normalizes to the defaults
(0, empty string, icon "01d") instead of failing or propagating nulls; and
the 200 response for such a payload carries exactly the nine fields. -/
theorem claimC5_weather_normalization (name country desc icon : String)
    (temp feels wind humidity pressure : ℚ) (key : String)
    (hk : key.isEmpty = false) :
    normalizeWeather (.jobj [("name", .jstr name),
      ("sys", .jobj [("country", .jstr country)]),
      ("main", .jobj [("temp", .jnum temp), ("feels_like", .jnum feels),
        ("humidity", .jnum humidity), ("pressure", .jnum pressure)]),
      ("weather", .jarr [.jobj [("description", .jstr desc),
        ("icon", .jstr icon)]]),
      ("wind", .jobj [("speed", .jnum wind)])]) =
      .ok [("location", .jstr name), ("country", .jstr country),
        ("temperature", .jnum (pyRound temp)),
        ("feels_like", .jnum (pyRound feels)),
        ("humidity", .jnum humidity),
        ("description", .jstr (pyCapitalize desc)), ("icon", .jstr icon),
        ("wind_speed", .jnum (pyRound wind)), ("pressure", .jnum pressure)] ∧
    (∀ n : ℤ, |temp - (pyRound temp : ℚ)| ≤ |temp - (n : ℚ)| ∧
      |feels - (pyRound feels : ℚ)| ≤ |feels - (n : ℚ)| ∧
      |wind - (pyRound wind : ℚ)| ≤ |wind - (n : ℚ)|) ∧
    normalizeWeather (.jobj []) =
      .ok [("location", .jstr "Unknown"), ("country", .jstr ""),
        ("temperature", .jnum 0), ("feels_like", .jnum 0),
        ("humidity", .jnum 0), ("description", .jstr ""),
        ("icon", .jstr "01d"), ("wind_speed", .jnum 0),
        ("pressure", .jnum 0)] ∧
    (getWeather (some "40") (some "-74") key
      (.ok (.jobj [("name", .jstr name),
        ("sys", .jobj [("country", .jstr country)]),
        ("main", .jobj [("temp", .jnum temp), ("feels_like", .jnum feels),
          ("humidity", .jnum humidity), ("pressure", .jnum pressure)]),
        ("weather", .jarr [.jobj [("description", .jstr desc),
          ("icon", .jstr icon)]]),
        ("wind", .jobj [("speed", .jnum wind)])]))).resp.status = 200 ∧
    bodyKeys (getWeather (some "40") (some "-74") key
      (.ok (.jobj [("name", .jstr name),
        ("sys", .jobj [("country", .jstr country)]),
        ("main", .jobj [("temp", .jnum temp), ("feels_like", .jnum feels),
          ("humidity", .jnum humidity), ("pressure", .jnum pressure)]),
        ("weather", .jarr [.jobj [("description", .jstr desc),
          ("icon", .jstr icon)]]),
        ("wind", .jobj [("speed", .jnum wind)])]))).resp =
      ["location", "country", "temperature", "feels_like", "humidity",
        "description", "icon", "wind_speed", "pressure"] := by
  have h1 : normalizeWeather (.jobj [("name", .jstr name),
      ("sys", .jobj [("country", .jstr country)]),
      ("main", .jobj [("temp", .jnum temp), ("feels_like", .jnum feels),
        ("humidity", .jnum humidity), ("pressure", .jnum pressure)]),
      ("weather", .jarr [.jobj [("description", .jstr desc),
        ("icon", .jstr icon)]]),
      ("wind", .jobj [("speed", .jnum wind)])]) =
      .ok [("location", .jstr name), ("country", .jstr country),
        ("temperature", .jnum (pyRound temp)),
        ("feels_like", .jnum (pyRound feels)),
        ("humidity", .jnum humidity),
        ("description", .jstr (pyCapitalize desc)), ("icon", .jstr icon),
        ("wind_speed", .jnum (pyRound wind)), ("pressure", .jnum pressure)] :=
    rfl
  refine ⟨h1,
    fun n => ⟨pyRound_nearest temp n, pyRound_nearest feels n,
      pyRound_nearest wind n⟩,
    normalizeWeather_empty, ?_, ?_⟩
  · simp [getWeather, validate_40_m74, hk, h1]
  · simp [getWeather, validate_40_m74, hk, h1, bodyKeys]

/-- Witness for C5 at a concrete payload. -/
theorem claimC5_weather_normalization_witness :
    normalizeWeather (.jobj [("name", .jstr "New York"),
      ("sys", .jobj [("country", .jstr "US")]),
      ("main", .jobj [("temp", .jnum 7), ("feels_like", .jnum 5),
        ("humidity", .jnum 80), ("pressure", .jnum 1013)]),
      ("weather", .jarr [.jobj [("description", .jstr "broken clouds"),
        ("icon", .jstr "04d")]]),
      ("wind", .jobj [("speed", .jnum 3)])]) =
      .ok [("location", .jstr "New York"), ("country", .jstr "US"),
        ("temperature", .jnum (pyRound 7)),
        ("feels_like", .jnum (pyRound 5)),
        ("humidity", .jnum 80),
        ("description", .jstr (pyCapitalize "broken clouds")),
        ("icon", .jstr "04d"), ("wind_speed", .jnum (pyRound 3)),
        ("pressure", .jnum 1013)] :=
  (claimC5_weather_normalization "New York" "US" "broken clouds" "04d"
    7 5 3 80 1013 "k" rfl).1

lemma str_append_search_step (a : String) {s m : String}
    (h : ∃ x y, s = x ++ (m ++ y)) : ∃ x y, a ++ s = x ++ (m ++ y) := by
  obtain ⟨x, y, rfl⟩ := h
  exact ⟨a ++ x, y, (String.append_assoc a x (m ++ y)).symm⟩

lemma str_append_search_base (m y : String) : ∃ x z, m ++ y = x ++ (m ++ z) :=
  ⟨"", y, rfl⟩

/-- The prompt as a right-nested concatenation isolating the interpolated
slots. -/
lemma buildPrompt_shape (l w : String) (t : JVal) (d : String) :
    buildPrompt l w t d =
      "Present a clear, 45° top-down isometric miniature 3D cartoon scene of "
        ++ (l ++ (", featuring its most iconic landmarks and architectural elements. Use soft, refined textures with realistic PBR materials and gentle, lifelike lighting and shadows. Integrate "
        ++ (w ++ (" weather directly into the city environment to create an immersive atmospheric mood. Use a clean, minimalistic composition with a soft, solid-colored background. At the top-center, place the title \""
        ++ (l ++ ("\" in large bold text, a prominent weather icon beneath it, then the date ("
        ++ (d ++ (") (small text) and temperature ("
        ++ ((pyStr t ++ "°C") ++ (") (medium text). All text must be centered with consistent spacing, and may subtly overlap the tops of the buildings. Square "
        ++ ("1000x1000" ++ " dimension"))))))))))) := by
  simp [buildPrompt, String.append_assoc]

set_option maxRecDepth 4096 in
/-- The prompt template checked byte-for-byte at a concrete input. -/
lemma buildPrompt_concrete :
    buildPrompt "Paris" "rainy" (.jnum 15) "October 12, 2025" =
      "Present a clear, 45° top-down isometric miniature 3D cartoon scene of Paris, featuring its most iconic landmarks and architectural elements. Use soft, refined textures with realistic PBR materials and gentle, lifelike lighting and shadows. Integrate rainy weather directly into the city environment to create an immersive atmospheric mood. Use a clean, minimalistic composition with a soft, solid-colored background. At the top-center, place the title \"Paris\" in large bold text, a prominent weather icon beneath it, then the date (October 12, 2025) (small text) and temperature (15°C) (medium text). All text must be centered with consistent spacing, and may subtly overlap the tops of the buildings. Square 1000x1000 dimension" :=
  rfl

/-- `pyNumRepr` checked against CPython `str()` on a non-integral value
reachable through validation: `str(20.5)` is `20.5`. -/
lemma pyNumRepr_half : pyNumRepr ⟨41, 2, by norm_num, by norm_num⟩ = "20.5" :=
  rfl

/-- `pyNumRepr` checked against CPython `str()` on the exponent-notation
side of the `1e-4` threshold: `str(0.000015)` is `1.5e-05`. -/
lemma pyNumRepr_small :
    pyNumRepr ⟨3, 200000, by norm_num, by norm_num⟩ = "1.5e-05" := rfl

/-- `pyNumRepr` checked against CPython `str()` on a negative value and on
the decimal side of the threshold: `str(-2.675)` is `-2.675`. -/
lemma pyNumRepr_neg :
    pyNumRepr ⟨-107, 40, by norm_num, by norm_num⟩ = "-2.675" := rfl

/-- The prompt renders a validated non-integral temperature exactly as the
program's f-string does: the `20.5` slot appears as `20.5°C`. -/
lemma pyStr_half_temperature :
    pyStr (.jnum ⟨41, 2, by norm_num, by norm_num⟩) ++ "°C" = "20.5°C" := rfl

/-- C6: prompt building is deterministic (identical inputs give identical
output), the prompt always contains the literal location and weather
strings, the interpolated temperature value directly suffixed by the
degree-Celsius unit, and the literal `1000x1000`; and every
post-validation response of the image route carries exactly this prompt in
its `prompt` field. -/
theorem claimC6_prompt_deterministic_and_complete (l w : String) (t : JVal)
    (d : String) (l2 w2 : String) (t2 : JVal) (d2 : String)
    (hl : l = l2) (hw : w = w2) (ht : t = t2) (hd : d = d2)
    (body : BodyResult) (sv : JVal)
    (hb : validateImageRequest body = .ok l w t sv)
    (key date : String) (gen : GenResult) :
    buildPrompt l w t d = buildPrompt l2 w2 t2 d2 ∧
    (∃ a b, buildPrompt l w t d = a ++ (l ++ b)) ∧
    (∃ a b, buildPrompt l w t d = a ++ (w ++ b)) ∧
    (∃ a b, buildPrompt l w t d = a ++ ((pyStr t ++ "°C") ++ b)) ∧
    (∃ a b, buildPrompt l w t d = a ++ ("1000x1000" ++ b)) ∧
    bodyField (generateImage body key date gen).resp "prompt" =
      some (.jstr (buildPrompt l w t date)) := by
  subst hl; subst hw; subst ht; subst hd
  refine ⟨rfl, ?_, ?_, ?_, ?_, ?_⟩
  · rw [buildPrompt_shape]
    exact str_append_search_step _ (str_append_search_base _ _)
  · rw [buildPrompt_shape]
    exact str_append_search_step _ (str_append_search_step _ (str_append_search_step _
      (str_append_search_base _ _)))
  · rw [buildPrompt_shape]
    exact str_append_search_step _ (str_append_search_step _ (str_append_search_step _
      (str_append_search_step _ (str_append_search_step _ (str_append_search_step _
      (str_append_search_step _ (str_append_search_step _ (str_append_search_step _
      (str_append_search_base _ _)))))))))
  · rw [buildPrompt_shape]
    exact str_append_search_step _ (str_append_search_step _ (str_append_search_step _
      (str_append_search_step _ (str_append_search_step _ (str_append_search_step _
      (str_append_search_step _ (str_append_search_step _ (str_append_search_step _
      (str_append_search_step _ (str_append_search_step _ (str_append_search_base _ _)))))))))))
  · have e1 : (("prompt" : String) == "image_url") = false := rfl
    have e2 : (("prompt" : String) == "error") = false := rfl
    have e3 : (("prompt" : String) == "prompt") = true := rfl
    by_cases hke : key.isEmpty
    · simp [generateImage, hb, hke, bodyField, List.lookup, e1, e2, e3]
    · cases gen with
      | exn m => simp [generateImage, hb, hke, bodyField, List.lookup, e1, e2, e3]
      | ok cands =>
        cases cands with
        | nil => simp [generateImage, hb, hke, bodyField, List.lookup, e1, e2, e3]
        | cons c cs =>
          obtain ⟨⟨parts⟩⟩ := c
          cases parts with
          | nil => simp [generateImage, hb, hke, bodyField, List.lookup, e1, e2, e3]
          | cons pt pts =>
            obtain ⟨idata⟩ := pt
            cases idata <;>
              simp [generateImage, hb, hke, bodyField, List.lookup, e1, e2, e3]

/-- Witness for C6: the prompt answered for a concrete request is exactly
the built prompt, and for a request with the validated non-integral
temperature 20.5 the prompt contains the rendered value followed by the
degree-Celsius unit. -/
theorem claimC6_prompt_deterministic_and_complete_witness :
    bodyField (generateImage (.parsed (.jobj [("location", .jstr "Test City")]))
      "" "May 01, 2025" (.ok [])).resp "prompt" =
      some (.jstr (buildPrompt "Test City" "clear sky" (.jnum 20)
        "May 01, 2025")) ∧
    (∃ a b, buildPrompt "unknown location" "clear sky"
        (.jnum ⟨41, 2, by norm_num, by norm_num⟩) "May 01, 2025" =
      a ++ ((pyStr (.jnum ⟨41, 2, by norm_num, by norm_num⟩) ++ "°C") ++ b)) :=
  ⟨(claimC6_prompt_deterministic_and_complete "Test City" "clear sky"
    (.jnum 20) "May 01, 2025" "Test City" "clear sky" (.jnum 20)
    "May 01, 2025" rfl rfl rfl rfl
    (.parsed (.jobj [("location", .jstr "Test City")])) (.jobj []) rfl ""
    "May 01, 2025" (.ok [])).2.2.2.2.2,
   (claimC6_prompt_deterministic_and_complete "unknown location" "clear sky"
    (.jnum ⟨41, 2, by norm_num, by norm_num⟩) "May 01, 2025"
    "unknown location" "clear sky" (.jnum ⟨41, 2, by norm_num, by norm_num⟩)
    "May 01, 2025" rfl rfl rfl rfl
    (.parsed (.jobj [("temperature",
      .jnum ⟨41, 2, by norm_num, by norm_num⟩)])) (.jobj []) rfl ""
    "May 01, 2025" (.ok [])).2.2.2.1⟩

lemma generateImage_status400_iff (body : BodyResult) (key date : String)
    (gen : GenResult) :
    (generateImage body key date gen).resp.status = 400 ↔
      ∃ msg, validateImageRequest body = .reject msg := by
  cases hv : validateImageRequest body with
  | reject msg => simp [generateImage, hv]
  | uncaught => simp [generateImage, hv]
  | ok l w tv sv =>
    by_cases hke : key.isEmpty
    · simp [generateImage, hv, hke]
    · cases gen with
      | exn m => simp [generateImage, hv, hke]
      | ok cands =>
        cases cands with
        | nil => simp [generateImage, hv, hke]
        | cons c cs =>
          obtain ⟨⟨parts⟩⟩ := c
          cases parts with
          | nil => simp [generateImage, hv, hke]
          | cons pt pts =>
            obtain ⟨idata⟩ := pt
            cases idata <;> simp [generateImage, hv, hke]

lemma validateImageRequest_jobj_reject_iff (fs : List (String × JVal))
    (hne : fs ≠ []) :
    (∃ msg, validateImageRequest (.parsed (.jobj fs)) = .reject msg) ↔
      ¬(validStrField ((fs.lookup "location").getD (.jstr "unknown location")) = true ∧
        validStrField ((fs.lookup "weather").getD (.jstr "clear sky")) = true ∧
        validTempField ((fs.lookup "temperature").getD (.jnum 20)) = true) := by
  have hemp : fs.isEmpty = false := by
    cases fs with
    | nil => exact absurd rfl hne
    | cons a t => rfl
  rcases hl : (fs.lookup "location").getD (.jstr "unknown location")
    with _ | b | n | sl | xs | gs
  case jnull => simp [validateImageRequest, pyTruthy, hemp, hl, validStrField]
  case jbool => simp [validateImageRequest, pyTruthy, hemp, hl, validStrField]
  case jnum => simp [validateImageRequest, pyTruthy, hemp, hl, validStrField]
  case jarr => simp [validateImageRequest, pyTruthy, hemp, hl, validStrField]
  case jobj => simp [validateImageRequest, pyTruthy, hemp, hl, validStrField]
  case jstr =>
    by_cases hlen : sl.length > 100
    · have hv1 : validStrField (.jstr sl) = false := by
        simp [validStrField]
        omega
      simp [validateImageRequest, pyTruthy, hemp, hl, hlen, hv1]
    · have hv1 : validStrField (.jstr sl) = true := by
        simp [validStrField]
        omega
      rcases hw : (fs.lookup "weather").getD (.jstr "clear sky")
        with _ | b2 | n2 | sw | xs2 | gs2
      · simp [validateImageRequest, pyTruthy, hemp, hl, hlen, hv1, hw,
          validStrField]
      · simp [validateImageRequest, pyTruthy, hemp, hl, hlen, hv1, hw,
          validStrField]
      · simp [validateImageRequest, pyTruthy, hemp, hl, hlen, hv1, hw,
          validStrField]
      · by_cases hwlen : sw.length > 100
        · have hv2 : validStrField (.jstr sw) = false := by
            simp [validStrField]
            omega
          simp [validateImageRequest, pyTruthy, hemp, hl, hlen, hv1, hw,
            hwlen, hv2]
        · have hv2 : validStrField (.jstr sw) = true := by
            simp [validStrField]
            omega
          rcases htv : pyFloatOfJVal ((fs.lookup "temperature").getD (.jnum 20))
            with _ | pf
          · have hv3 : validTempField ((fs.lookup "temperature").getD (.jnum 20))
                = false := by
              simp [validTempField, htv]
            simp [validateImageRequest, pyTruthy, hemp, hl, hlen, hv1, hw,
              hwlen, hv2, htv, hv3]
          · cases pf with
            | finite tq =>
              by_cases hb : -100 ≤ tq ∧ tq ≤ 100
              · have hv3 : validTempField
                    ((fs.lookup "temperature").getD (.jnum 20)) = true := by
                  simp [validTempField, htv, hb]
                simp [validateImageRequest, pyTruthy, hemp, hl, hlen, hv1, hw,
                  hwlen, hv2, htv, hb, hv3]
              · have hv3 : validTempField
                    ((fs.lookup "temperature").getD (.jnum 20)) = false := by
                  simp [validTempField, htv, hb]
                simp [validateImageRequest, pyTruthy, hemp, hl, hlen, hv1, hw,
                  hwlen, hv2, htv, hb, hv3]
            | inf =>
              have hv3 : validTempField ((fs.lookup "temperature").getD (.jnum 20))
                  = false := by
                simp [validTempField, htv]
              simp [validateImageRequest, pyTruthy, hemp, hl, hlen, hv1, hw,
                hwlen, hv2, htv, hv3]
            | negInf =>
              have hv3 : validTempField ((fs.lookup "temperature").getD (.jnum 20))
                  = false := by
                simp [validTempField, htv]
              simp [validateImageRequest, pyTruthy, hemp, hl, hlen, hv1, hw,
                hwlen, hv2, htv, hv3]
            | nan =>
              have hv3 : validTempField ((fs.lookup "temperature").getD (.jnum 20))
                  = false := by
                simp [validTempField, htv]
              simp [validateImageRequest, pyTruthy, hemp, hl, hlen, hv1, hw,
                hwlen, hv2, htv, hv3]
      · simp [validateImageRequest, pyTruthy, hemp, hl, hlen, hv1, hw,
          validStrField]
      · simp [validateImageRequest, pyTruthy, hemp, hl, hlen, hv1, hw,
          validStrField]

/-- C2 counterexample: the empty JSON object is a valid JSON body in which
every field is absent and none is invalid, yet the handler rejects it with
HTTP 400 ("No data provided") because the parsed body is falsy. -/
theorem claimC2_counterexample :
    (generateImage (.parsed (.jobj [])) "k" "May 01, 2025" (.ok [])).resp =
      ⟨400, errBody "No data provided"⟩ := rfl

/-- C2 (amended): for a body parsing to a nonempty JSON object, the
handler returns 400 exactly when a present field is invalid (absent
fields are replaced by the fixed defaults, which pass validation), and
when location, weather, temperature and settings are all absent validation
yields the defaults `"unknown location"`, `"clear sky"`, `20` and the
empty settings object; a body parsing to a falsy JSON value — in
particular the empty object — is rejected with 400 "No data provided"
even though nothing present is invalid. -/
theorem claimC2_body_validation (fs : List (String × JVal)) (hne : fs ≠ [])
    (key date : String) (gen : GenResult) :
    ((generateImage (.parsed (.jobj fs)) key date gen).resp.status = 400 ↔
      ¬(validStrField ((fs.lookup "location").getD (.jstr "unknown location")) = true ∧
        validStrField ((fs.lookup "weather").getD (.jstr "clear sky")) = true ∧
        validTempField ((fs.lookup "temperature").getD (.jnum 20)) = true)) ∧
    (fs.lookup "location" = none → fs.lookup "weather" = none →
      fs.lookup "temperature" = none → fs.lookup "settings" = none →
      validateImageRequest (.parsed (.jobj fs)) =
        .ok "unknown location" "clear sky" (.jnum 20) (.jobj [])) := by
  constructor
  · exact (generateImage_status400_iff _ _ _ _).trans
      (validateImageRequest_jobj_reject_iff fs hne)
  · intro h1 h2 h3 h4
    have hemp : fs.isEmpty = false := by
      cases fs with
      | nil => exact absurd rfl hne
      | cons a t => rfl
    simp only [validateImageRequest, pyTruthy, hemp, h1, h2, h3, h4]
    rfl

/-- Witness for C2 (amended): an oversized location is rejected with 400,
and a body with none of the four fields present validates to the
defaults. -/
theorem claimC2_body_validation_witness :
    (generateImage (.parsed (.jobj [("location", .jstr
      "aaaaaaaaaaaaaaaaaaaaaaaaaaaaaaaaaaaaaaaaaaaaaaaaaaaaaaaaaaaaaaaaaaaaaaaaaaaaaaaaaaaaaaaaaaaaaaaaaaaaa")]))
      "k" "May 01, 2025" (.ok [])).resp.status = 400 ∧
    validateImageRequest (.parsed (.jobj [("extra", .jnull)])) =
      .ok "unknown location" "clear sky" (.jnum 20) (.jobj []) := by
  constructor
  · exact (claimC2_body_validation [("location", .jstr
      "aaaaaaaaaaaaaaaaaaaaaaaaaaaaaaaaaaaaaaaaaaaaaaaaaaaaaaaaaaaaaaaaaaaaaaaaaaaaaaaaaaaaaaaaaaaaaaaaaaaaa")]
      (by simp) "k" "May 01, 2025" (.ok [])).1.mpr (by decide)
  · exact (claimC2_body_validation [("extra", .jnull)] (by simp) "k"
      "May 01, 2025" (.ok [])).2 rfl rfl rfl rfl

end DioramaCast
